import Mathlib

/-!
Verification of the Magma Access Gateway operator charm (src/charm.py).

The development shallowly embeds the configuration validator, the
install-argument builder, the DNS / IP address checks, the secret
extraction helper, the idempotent file installation and the
orchestrator-availability handler of the charm.  Python standard-library
helpers the charm calls (json.loads, ipaddress.ip_address,
ipaddress.ip_network, str.split) are modelled as executable Lean
functions following their documented behaviour on the inputs the charm
passes them.
-/

namespace Agw

/-! ## Character-list utilities (model of Python str.split and friends) -/

/-- Model of Python str.split with a one-character separator: splits a
character list at every occurrence of `sep`, keeping empty pieces, so the
result always has one more piece than there are separators. -/
def splitOnChar (sep : Char) : List Char → List (List Char)
  | [] => [[]]
  | c :: cs =>
    if c = sep then [] :: splitOnChar sep cs
    else
      match splitOnChar sep cs with
      | [] => [[c]]
      | p :: ps => (c :: p) :: ps

/-- Model of Python str.split on the two-character separator used for
the IPv6 double colon: splits at every non-overlapping occurrence of two
consecutive colons, scanning left to right. -/
def splitOnDoubleColon : List Char → List (List Char)
  | ':' :: ':' :: rest =>
    match splitOnDoubleColon rest with
    | [] => [[], []]
    | ps => [] :: ps
  | c :: rest =>
    match splitOnDoubleColon rest with
    | [] => [[c]]
    | p :: ps => (c :: p) :: ps
  | [] => [[]]

/-- Python str.split on a newline, lifted to `String`. -/
def pySplitNewline (s : String) : List String :=
  (splitOnChar '\n' s.data).map String.mk

/-- Decimal value of a digit list (each entry assumed a decimal digit). -/
def decimalVal (l : List Char) : Nat :=
  l.foldl (fun a c => a * 10 + (c.toNat - 48)) 0

/-! ## IP address parsing (model of Python ipaddress) -/

/-- One octet of a dotted quad, as Python ipaddress accepts it:
nonempty, at most three decimal digits, no leading zero, value at
most 255. -/
def validOctet (g : List Char) : Bool :=
  !g.isEmpty && decide (g.length ≤ 3) && g.all Char.isDigit &&
    (decide (g.length = 1) || !(g.head? = some '0')) && decide (decimalVal g ≤ 255)

/-- The 32-bit value of a dotted quad, when the four octets are valid.
Models the address parsing inside Python ipaddress.IPv4Address. -/
def ipv4Value (l : List Char) : Option Nat :=
  match splitOnChar '.' l with
  | [a, b, c, d] =>
    if validOctet a && validOctet b && validOctet c && validOctet d then
      some (((decimalVal a * 256 + decimalVal b) * 256 + decimalVal c) * 256 + decimalVal d)
    else none
  | _ => none

/-- Whether a character list is a valid IPv4 host address (dotted quad). -/
def isIPv4Chars (l : List Char) : Bool :=
  (ipv4Value l).isSome

/-- Hexadecimal digit test used for IPv6 hextets. -/
def isHexChar (c : Char) : Bool :=
  c.isDigit || ('a' ≤ c && c ≤ 'f') || ('A' ≤ c && c ≤ 'F')

/-- A hextet: one to four hexadecimal digits. -/
def validHextet (g : List Char) : Bool :=
  !g.isEmpty && decide (g.length ≤ 4) && g.all isHexChar

/-- The pieces strictly between colons on one side of a double colon:
none when a piece is empty (a stray single colon), the empty list for an
empty side. -/
def ipv6SideGroups (side : List Char) : Option (List (List Char)) :=
  if side.isEmpty then some []
  else
    let gs := splitOnChar ':' side
    if gs.any List.isEmpty then none else some gs

/-- Number of 16-bit groups a side of an IPv6 address stands for, with a
trailing embedded IPv4 quad (permitted only in the last position of the
whole address) counting as two groups; none when a group is malformed. -/
def ipv6GroupCount (gs : List (List Char)) (lastMayBeV4 : Bool) : Option Nat :=
  match gs.reverse with
  | [] => some 0
  | last :: initRev =>
    if initRev.all validHextet then
      if lastMayBeV4 && last.contains '.' then
        if isIPv4Chars last then some (initRev.length + 2) else none
      else if validHextet last then some (initRev.length + 1) else none
    else none

/-- Whether a character list is a valid IPv6 host address.  Models the
Python ipaddress.IPv6Address string parser: at most one double colon,
which must compress at least one zero group; without it exactly eight
groups; an embedded IPv4 quad may stand for the last two groups. -/
def isIPv6Chars (l : List Char) : Bool :=
  match splitOnDoubleColon l with
  | [whole] =>
    match ipv6SideGroups whole with
    | some gs =>
      match ipv6GroupCount gs true with
      | some n => decide (n = 8)
      | none => false
    | none => false
  | [left, right] =>
    match ipv6SideGroups left, ipv6SideGroups right with
    | some gl, some gr =>
      match ipv6GroupCount gl false, ipv6GroupCount gr true with
      | some nl, some nr => decide (nl + nr ≤ 7)
      | _, _ => false
    | _, _ => false
  | _ => false

/-- Python ipaddress.ip_address on a string: first tried as IPv4, then
as IPv6. -/
def is_ipv4_host (s : String) : Bool := isIPv4Chars s.data

/-- Python ipaddress.ip_address acceptance of a string as IPv6 (only
reached when the IPv4 parse failed). -/
def is_ipv6_host (s : String) : Bool := isIPv6Chars s.data

/-- Prefix length encoded by a 32-bit netmask value (high ones then
zeros), as Python ipaddress decodes netmask strings. -/
def prefixFromNetmask (m : Nat) : Option Nat :=
  (List.range 33).findSome? fun p => if m = 2 ^ 32 - 2 ^ (32 - p) then some p else none

/-- Prefix length encoded by a 32-bit hostmask value (zeros then low
ones), the fallback Python ipaddress tries after the netmask form. -/
def prefixFromHostmask (m : Nat) : Option Nat :=
  (List.range 33).findSome? fun p => if m = 2 ^ (32 - p) - 1 then some p else none

/-- The IPv4 prefix part after the slash, as Python ipaddress accepts
it: a decimal prefix length up to 32, else a dotted-quad netmask, else a
dotted-quad hostmask. -/
def v4PrefixFromChars (g : List Char) : Option Nat :=
  if !g.isEmpty && g.all Char.isDigit && decide (decimalVal g ≤ 32) then
    some (decimalVal g)
  else
    match ipv4Value g with
    | some m =>
      match prefixFromNetmask m with
      | some p => some p
      | none => prefixFromHostmask m
    | none => none

/-- The IPv6 prefix part after the slash: only a decimal prefix length
up to 128 (Python ipaddress accepts no IPv6 netmask in address form). -/
def v6PrefixFromChars (g : List Char) : Option Nat :=
  if !g.isEmpty && g.all Char.isDigit && decide (decimalVal g ≤ 128) then
    some (decimalVal g)
  else none

/-- An IP network as the charm inspects it: the family and the prefix
length are all that its checks read. -/
inductive IPNet where
  | v4 (prefixlen : Nat)
  | v6 (prefixlen : Nat)
deriving DecidableEq, Repr

/-- Model of Python ipaddress.ip_network(s, strict=False): at most one
slash; without one the prefix is the full host length; with one, the
address part decides the family and the prefix part must fit it. -/
def parse_ip_network (s : String) : Option IPNet :=
  match splitOnChar '/' s.data with
  | [a] =>
    if isIPv4Chars a then some (IPNet.v4 32)
    else if isIPv6Chars a then some (IPNet.v6 128)
    else none
  | [a, p] =>
    if isIPv4Chars a then
      match v4PrefixFromChars p with
      | some n => some (IPNet.v4 n)
      | none => none
    else if isIPv6Chars a then
      match v6PrefixFromChars p with
      | some n => some (IPNet.v6 n)
      | none => none
    else none
  | _ => none

/-! ## JSON (model of Python json.loads for the values the charm parses) -/

/-- A parsed JSON value.  Non-integer numeric literals are kept abstract
as `fnum`: Python json.loads turns them into floats, and every float is
rejected by ipaddress.ip_address, which is all the charm does with
them. -/
inductive JsonValue where
  | null
  | bool (b : Bool)
  | num (n : Int)
  | fnum
  | str (s : String)
  | arr (elems : List JsonValue)
  | obj (fields : List (String × JsonValue))

/-- Opening brace character, written by code so that no brace appears in
a string literal. -/
def lbraceChar : Char := Char.ofNat 123

/-- Closing brace character. -/
def rbraceChar : Char := Char.ofNat 125

/-- JSON insignificant whitespace. -/
def isJsonWs (c : Char) : Bool :=
  c = ' ' || c = '\t' || c = '\n' || c = '\r'

/-- Drop leading JSON whitespace. -/
def skipWs : List Char → List Char
  | [] => []
  | c :: cs => if isJsonWs c then skipWs cs else c :: cs

/-- Value of one hexadecimal digit. -/
def hexVal (c : Char) : Option Nat :=
  if c.isDigit then some (c.toNat - 48)
  else if 'a' ≤ c && c ≤ 'f' then some (c.toNat - 87)
  else if 'A' ≤ c && c ≤ 'F' then some (c.toNat - 55)
  else none

/-- Body of a JSON string literal after the opening quote: ends at the
closing quote, understands the escape sequences, refuses raw control
characters (surrogate-pair recombination of \u escapes is not
modelled; the charm never parses such input). -/
def parseJStringAux : List Char → List Char → Option (String × List Char)
  | [], _ => none
  | '"' :: rest, acc => some (String.mk acc.reverse, rest)
  | '\\' :: rest, acc =>
    match rest with
    | '"' :: r => parseJStringAux r ('"' :: acc)
    | '\\' :: r => parseJStringAux r ('\\' :: acc)
    | '/' :: r => parseJStringAux r ('/' :: acc)
    | 'n' :: r => parseJStringAux r ('\n' :: acc)
    | 't' :: r => parseJStringAux r ('\t' :: acc)
    | 'r' :: r => parseJStringAux r ('\r' :: acc)
    | 'b' :: r => parseJStringAux r (Char.ofNat 8 :: acc)
    | 'f' :: r => parseJStringAux r (Char.ofNat 12 :: acc)
    | 'u' :: h1 :: h2 :: h3 :: h4 :: r =>
      match hexVal h1, hexVal h2, hexVal h3, hexVal h4 with
      | some a, some b, some c, some d =>
        parseJStringAux r (Char.ofNat (((a * 16 + b) * 16 + c) * 16 + d) :: acc)
      | _, _, _, _ => none
    | _ => none
  | c :: rest, acc =>
    if c.toNat < 32 then none else parseJStringAux rest (c :: acc)

/-- Longest leading run of decimal digits. -/
def takeDigits : List Char → List Char × List Char
  | [] => ([], [])
  | c :: cs =>
    if c.isDigit then
      match takeDigits cs with
      | (d, r) => (c :: d, r)
    else ([], c :: cs)

/-- A JSON number literal: optional minus, an integer part without a
leading zero, optional fraction and exponent.  Integral literals become
`num`, fractional or exponential ones `fnum` (a Python float). -/
def parseJNumber (l : List Char) : Option (JsonValue × List Char) :=
  let (neg, l1) :=
    match l with
    | '-' :: r => (true, r)
    | _ => (false, l)
  match takeDigits l1 with
  | (ds, l2) =>
    if ds.isEmpty then none
    else if decide (1 < ds.length) && ds.head? = some '0' then none
    else
      let (hasFrac, fracDigits, l3) :=
        match l2 with
        | '.' :: r =>
          match takeDigits r with
          | (fs, r2) => (true, fs, r2)
        | _ => (false, [], l2)
      if hasFrac && fracDigits.isEmpty then none
      else
        let (hasExp, expDigits, l4) :=
          match l3 with
          | 'e' :: r | 'E' :: r =>
            let r2 :=
              match r with
              | '+' :: t => t
              | '-' :: t => t
              | _ => r
            match takeDigits r2 with
            | (es, r3) => (true, es, r3)
          | _ => (false, [], l3)
        if hasExp && expDigits.isEmpty then none
        else if hasFrac || hasExp then some (JsonValue.fnum, l4)
        else
          let v : Int := Int.ofNat (decimalVal ds)
          some (JsonValue.num (if neg then -v else v), l4)

mutual

/-- One JSON value with what follows it, fuel-bounded. -/
def parseJVal : Nat → List Char → Option (JsonValue × List Char)
  | 0, _ => none
  | fuel + 1, l =>
    match skipWs l with
    | [] => none
    | '"' :: r => (parseJStringAux r []).map fun p => (JsonValue.str p.1, p.2)
    | '[' :: r =>
      (match skipWs r with
       | ']' :: r2 => some (JsonValue.arr [], r2)
       | r2 => (parseJArr fuel r2).map fun p => (JsonValue.arr p.1, p.2))
    | 't' :: 'r' :: 'u' :: 'e' :: r => some (JsonValue.bool true, r)
    | 'f' :: 'a' :: 'l' :: 's' :: 'e' :: r => some (JsonValue.bool false, r)
    | 'n' :: 'u' :: 'l' :: 'l' :: r => some (JsonValue.null, r)
    | c :: r =>
      if c = lbraceChar then
        match skipWs r with
        | c2 :: r2 =>
          if c2 = rbraceChar then some (JsonValue.obj [], r2)
          else (parseJObj fuel (c2 :: r2)).map fun p => (JsonValue.obj p.1, p.2)
        | [] => none
      else parseJNumber (c :: r)

/-- The elements of a nonempty JSON array after the opening bracket. -/
def parseJArr : Nat → List Char → Option (List JsonValue × List Char)
  | 0, _ => none
  | fuel + 1, l =>
    match parseJVal fuel l with
    | none => none
    | some (v, r) =>
      match skipWs r with
      | ',' :: r2 => (parseJArr fuel r2).map fun p => (v :: p.1, p.2)
      | ']' :: r2 => some ([v], r2)
      | _ => none

/-- The members of a nonempty JSON object after the opening brace. -/
def parseJObj : Nat → List Char → Option (List (String × JsonValue) × List Char)
  | 0, _ => none
  | fuel + 1, l =>
    match skipWs l with
    | '"' :: r =>
      (match parseJStringAux r [] with
       | none => none
       | some (k, r2) =>
         match skipWs r2 with
         | ':' :: r3 =>
           (match parseJVal fuel r3 with
            | none => none
            | some (v, r4) =>
              match skipWs r4 with
              | ',' :: r5 => (parseJObj fuel r5).map fun p => ((k, v) :: p.1, p.2)
              | c :: r5 => if c = rbraceChar then some ([(k, v)], r5) else none
              | [] => none)
         | _ => none)
    | _ => none

end

/-- Model of Python json.loads: one JSON value, with only whitespace
around it. -/
def jsonParse (s : String) : Option JsonValue :=
  match parseJVal (2 * s.data.length + 4) s.data with
  | some (v, rest) => if (skipWs rest).isEmpty then some v else none
  | none => none

/-- Model of Python ipaddress.ip_address applied to an element of a
decoded JSON list: a string must be an IPv4 or IPv6 host address, an
integer must lie in the 128-bit range (Python also takes a bool, which
is an int 0 or 1, hence always in range); every other value raises
ValueError. -/
def ip_address_ok : JsonValue → Bool
  | JsonValue.str s => is_ipv4_host s || is_ipv6_host s
  | JsonValue.num n => decide (0 ≤ n) && decide (n < 2 ^ 128)
  | JsonValue.bool _ => true
  | _ => false

/-! ## The charm's static validation helpers (src/charm.py) -/

/-- charm.py `_is_valid_ipv4_address`: the string parses with
ip_network(strict=False) into an IPv4 network whose prefix length is
not 32. -/
def is_valid_ipv4_address (s : String) : Bool :=
  match parse_ip_network s with
  | some (IPNet.v4 p) => p != 32
  | _ => false

/-- charm.py `_is_valid_ipv6_address`: an IPv6 network whose prefix
length is not 128. -/
def is_valid_ipv6_address (s : String) : Bool :=
  match parse_ip_network s with
  | some (IPNet.v6 p) => p != 128
  | _ => false

/-- charm.py `_is_valid_ipv4_gateway`: ip_address accepts the string as
an IPv4 host address. -/
def is_valid_ipv4_gateway (s : String) : Bool :=
  is_ipv4_host s

/-- charm.py `_is_valid_ipv6_gateway`: ip_address accepts the string,
and as IPv6 (ip_address tries IPv4 first). -/
def is_valid_ipv6_gateway (s : String) : Bool :=
  if is_ipv4_host s then false else is_ipv6_host s

/-- charm.py `_are_valid_dns`: the string decodes as JSON to a nonempty
list every element of which ip_address accepts. -/
def are_valid_dns (dns : String) : Bool :=
  match jsonParse dns with
  | some (JsonValue.arr l) => !l.isEmpty && l.all ip_address_ok
  | _ => false

/-! ## Configuration model -/

/-- The charm's configuration snapshot, as `self.model.config` presents
it: the boolean `skip-networking` option, the string `dns` option (both
always present, the install code indexes them directly), and the
remaining options as a key-to-string association in the mapping's own
key order. -/
structure Config where
  skipNetworking : Bool
  dns : String
  rest : List (String × String)

/-- `config.get(key)` for a key other than skip-networking and dns. -/
def Config.get (c : Config) (k : String) : Option String :=
  c.rest.lookup k

/-- Python truthiness of an optional configuration string: absent and
empty are both falsy. -/
def truthy : Option String → Bool
  | none => false
  | some s => !s.isEmpty

/-! ## The validator (charm.py `_is_configuration_valid` and helpers) -/

/-- charm.py `_is_valid_interface`: the name must be configured and
either it or the renamed target must be among the host's interfaces
(`host` models netifaces.interfaces()).  Returns the verdict with the
warnings logged. -/
def is_valid_interface (host : List String) (c : Config)
    (interface_name new_interface_name : String) : Bool × List String :=
  let interface := c.get interface_name
  if !truthy interface then
    (false, [interface_name ++ " interface name is required"])
  else if !host.contains (interface.getD "") && !host.contains new_interface_name then
    (false, [interface.getD "" ++ " interface not found"])
  else (true, [])

/-- charm.py `_is_valid_sgi_interface_addressing_configuration`: the
chain of sgi addressing checks, returning at the first failed one with
its single warning. -/
def sgi_addressing (c : Config) : Bool × List String :=
  let a4 := c.get "sgi-ipv4-address"
  let g4 := c.get "sgi-ipv4-gateway"
  let a6 := c.get "sgi-ipv6-address"
  let g6 := c.get "sgi-ipv6-gateway"
  if !truthy a4 && !truthy g4 && !truthy a6 && !truthy g6 then (true, [])
  else if (truthy a4 || truthy g4) && !(truthy a4 && truthy g4) then
    (false, ["Both IPv4 address and gateway required for interface sgi"])
  else if (truthy a6 || truthy g6) && !(truthy a6 && truthy g6) then
    (false, ["Both IPv6 address and gateway required for interface sgi"])
  else if truthy a6 && !truthy a4 then
    (false, ["Pure IPv6 configuration is not supported for interface sgi"])
  else if truthy a4 && !is_valid_ipv4_address (a4.getD "") then
    (false, ["Invalid IPv4 address and netmask for interface sgi"])
  else if truthy g4 && !is_valid_ipv4_gateway (g4.getD "") then
    (false, ["Invalid IPv4 gateway for interface sgi"])
  else if truthy a6 && !is_valid_ipv6_address (a6.getD "") then
    (false, ["Invalid IPv6 address and netmask for interface sgi"])
  else if truthy g6 && !is_valid_ipv6_gateway (g6.getD "") then
    (false, ["Invalid IPv6 gateway for interface sgi"])
  else (true, [])

/-- charm.py `_is_valid_s1_interface_addressing_configuration`. -/
def s1_addressing (c : Config) : Bool × List String :=
  let a4 := c.get "s1-ipv4-address"
  let a6 := c.get "s1-ipv6-address"
  if !truthy a4 && !truthy a6 then (true, [])
  else if truthy a6 && !truthy a4 then
    (false, ["Pure IPv6 configuration is not supported for interface s1"])
  else if truthy a4 && !is_valid_ipv4_address (a4.getD "") then
    (false, ["Invalid IPv4 address and netmask for interface s1"])
  else if truthy a6 && !is_valid_ipv6_address (a6.getD "") then
    (false, ["Invalid IPv6 address and netmask for interface s1"])
  else (true, [])

/-- charm.py `_is_configuration_valid`: passes outright when
skip-networking is set; otherwise evaluates the sgi and s1 interface
checks, both addressing blocks and the DNS check in that order, each one
regardless of the earlier verdicts, and conjoins the outcomes.  The
second component collects the warnings in logging order. -/
def is_configuration_valid (host : List String) (c : Config) : Bool × List String :=
  if c.skipNetworking then (true, [])
  else
    let r1 := is_valid_interface host c "sgi" "eth0"
    let r2 := is_valid_interface host c "s1" "eth1"
    let r3 := sgi_addressing c
    let r4 := s1_addressing c
    let r5 :=
      if are_valid_dns c.dns then (true, ([] : List String))
      else (false, ["Invalid DNS configuration"])
    (r1.1 && r2.1 && r3.1 && r4.1 && r5.1, r1.2 ++ r2.2 ++ r3.2 ++ r4.2 ++ r5.2)

/-! ## The install-argument builder (charm.py `_install_arguments`) -/

/-- The decoded dns elements as command-line strings, defined when every
element is a JSON string (the code extends a List[str] with the decoded
elements; a non-string element would put a non-string into the command,
outside the function's type). -/
def jsonStringList : List JsonValue → Option (List String)
  | [] => some []
  | JsonValue.str s :: rest => (jsonStringList rest).map fun l => s :: l
  | _ => none

/-- charm.py `_install_arguments`: with skip-networking set, exactly the
two fixed arguments; otherwise `--no-reboot --dns`, the decoded dns
list, then `--key value` for every remaining option in mapping order,
with no emptiness filter.  `none` models the paths on which the Python
code raises (dns fails to decode) or escapes its List[str] type (a
non-string or non-list decode); the builder's contract is to run only
after validation. -/
def install_arguments (c : Config) : Option (List String) :=
  if c.skipNetworking then some ["--no-reboot", "--skip-networking"]
  else
    match jsonParse c.dns with
    | some (JsonValue.arr l) =>
      match jsonStringList l with
      | some dnsList =>
        some (["--no-reboot", "--dns"] ++ dnsList ++
          c.rest.flatMap fun kv => ["--" ++ kv.1, kv.2])
      | none => none
    | _ => none

/-- The builder as the specification describes it, for comparison with
`install_arguments`: identical except that a remaining key whose value
is the empty string is claimed to contribute no arguments. -/
def build_arguments_spec (c : Config) : Option (List String) :=
  if c.skipNetworking then some ["--no-reboot", "--skip-networking"]
  else
    match jsonParse c.dns with
    | some (JsonValue.arr l) =>
      match jsonStringList l with
      | some dnsList =>
        some (["--no-reboot", "--dns"] ++ dnsList ++
          (c.rest.filter fun kv => !kv.2.isEmpty).flatMap fun kv => ["--" ++ kv.1, kv.2])
      | none => none
    | _ => none

/-! ## Secret extraction (charm.py `_get_magma_secrets` and its action) -/

/-- The Python exceptions the extraction can raise: list.index on a
missing label raises ValueError, indexing one past the end raises
IndexError. -/
inductive SecretError where
  | valueError
  | indexError
deriving DecidableEq, Repr

/-- Python list.index: the first position of an element, ValueError when
absent. -/
def pyIndex : List String → String → Option Nat
  | [], _ => none
  | x :: xs, a => if x = a then some 0 else (pyIndex xs a).map (· + 1)

/-- The charm's regular expression `^-(-*)` matches exactly the lines
whose first character is a dash. -/
def startsWithDash (l : String) : Bool :=
  l.data.head? = some '-'

/-- The script output after the charm's two filters: blank lines are
dropped (filter(None, ...)), then lines starting with a dash. -/
def filterGatewayInfo (raw : String) : List String :=
  ((pySplitNewline raw).filter fun l => !l.isEmpty).filter fun l => !startsWithDash l

/-- charm.py `_get_magma_secrets` applied to the decoded output of
show_gateway_info.py: the line after the first "Hardware ID" line and
the line after the first "Challenge key" line of the filtered output,
with the exception Python would raise when a label is missing or is the
last line. -/
def get_magma_secrets (raw : String) : Except SecretError (String × String) :=
  match pyIndex (filterGatewayInfo raw) "Hardware ID" with
  | none => Except.error SecretError.valueError
  | some i =>
    match (filterGatewayInfo raw).get? (i + 1) with
    | none => Except.error SecretError.indexError
    | some hw =>
      match pyIndex (filterGatewayInfo raw) "Challenge key" with
      | none => Except.error SecretError.valueError
      | some j =>
        match (filterGatewayInfo raw).get? (j + 1) with
        | none => Except.error SecretError.indexError
        | some ck => Except.ok (hw, ck)

/-- Whether the filtered output carries both labels, each with a line
after it: exactly the inputs on which the extraction succeeds. -/
def wellFormedGatewayInfo (raw : String) : Bool :=
  (match pyIndex (filterGatewayInfo raw) "Hardware ID" with
   | some i => decide (i + 1 < (filterGatewayInfo raw).length)
   | none => false) &&
  (match pyIndex (filterGatewayInfo raw) "Challenge key" with
   | some j => decide (j + 1 < (filterGatewayInfo raw).length)
   | none => false)

/-- Outcome of a juju action handler: results set, or event.fail with a
message. -/
inductive ActionResult where
  | results (hardware_id challenge_key : String)
  | fail (msg : String)
deriving DecidableEq, Repr

/-- charm.py `_on_get_access_gateway_secrets`: fails early when magma is
not running; otherwise publishes the two secrets, and turns either
extraction exception into the fixed action failure (the except clause
lists CalledProcessError, IndexError and ValueError).  The handler is a
total function: no exception escapes it. -/
def on_get_access_gateway_secrets (magmaRunning : Bool) (raw : String) : ActionResult :=
  if !magmaRunning then ActionResult.fail "Magma is not running! Please start Magma and try again."
  else
    match get_magma_secrets raw with
    | Except.ok (hw, ck) => ActionResult.results hw ck
    | Except.error _ => ActionResult.fail "Failed to get Magma Access Gateway secrets!"

/-! ## Files (charm.py install_file and the orchestrator handler) -/

/-- Fixed paths from charm.py. -/
def ROOT_CA_PATH : String := "/var/opt/magma/tmp/certs/rootCA.pem"

/-- Path of the stored certifier certificate. -/
def CERT_CERTIFIER_CERT : String := "/var/opt/magma/tmp/certs/certifier.pem"

/-- Path of the generated control proxy configuration. -/
def CONFIG_PATH : String := "/var/opt/magma/configs/control_proxy.yml"

/-- The filesystem as the charm touches it: the directories that exist
and the files with their text content. -/
structure FS where
  dirs : List String
  files : List (String × String)

/-- Content of a file, none when absent. -/
def FS.fileContent (fs : FS) (p : String) : Option String :=
  fs.files.lookup p

/-- Whether a directory exists. -/
def FS.dirExists (fs : FS) (d : String) : Bool :=
  fs.dirs.contains d

/-- Whole-file write (Path.write_text). -/
def FS.writeFile (fs : FS) (p c : String) : FS :=
  { fs with files := (p, c) :: fs.files.filter fun q => q.1 ≠ p }

/-- Path.unlink with FileNotFoundError swallowed: removing an absent
file is a no-op. -/
def FS.removeFile (fs : FS) (p : String) : FS :=
  { fs with files := fs.files.filter fun q => q.1 ≠ p }

/-- Rejoin path components with slashes. -/
def joinWithSlash : List (List Char) → List Char
  | [] => []
  | [x] => x
  | x :: xs => x ++ '/' :: joinWithSlash xs

/-- Python Path.parent: the path up to the last slash. -/
def parentDir (p : String) : String :=
  String.mk (joinWithSlash ((splitOnChar '/' p.data).dropLast))

/-- charm.py `install_file`: create the parent directory when missing,
return False without writing when the file already holds the content,
else write it and return True. -/
def install_file (fs : FS) (file content : String) : Bool × FS :=
  if !fs.dirExists (parentDir file) then
    (true, FS.writeFile { fs with dirs := parentDir file :: fs.dirs } file content)
  else if fs.fileContent file = some content then
    (false, fs)
  else
    (true, FS.writeFile fs file content)

/-- The data an OrchestratorAvailableEvent announces. -/
structure OrchestratorEvent where
  orchestrator_address : String
  orchestrator_port : Int
  bootstrapper_address : String
  bootstrapper_port : Int
  fluentd_address : String
  fluentd_port : Int
  root_ca_certificate : String
  certifier_pem_certificate : String

/-- charm.py `_generate_config`: the fixed template over the announced
addresses and ports. -/
def generate_config (orchestrator_address : String) (orchestrator_port : Int)
    (bootstrapper_address : String) (bootstrapper_port : Int)
    (fluentd_address : String) (fluentd_port : Int) : String :=
  "cloud_address: " ++ orchestrator_address ++ "\n" ++
  "cloud_port: " ++ toString orchestrator_port ++ "\n" ++
  "bootstrap_address: " ++ bootstrapper_address ++ "\n" ++
  "bootstrap_port: " ++ toString bootstrapper_port ++ "\n" ++
  "fluentd_address: " ++ fluentd_address ++ "\n" ++
  "fluentd_port: " ++ toString fluentd_port ++ "\n" ++
  "\n" ++
  "rootca_cert: " ++ ROOT_CA_PATH ++ "\n"

/-- charm.py `_certifier_pem_changed`: the stored certifier certificate
exists and differs from the announced one. -/
def certifier_pem_changed (fs : FS) (new_cert : String) : Bool :=
  match fs.fileContent CERT_CERTIFIER_CERT with
  | some c => c ≠ new_cert
  | none => false

/-- charm.py `_remove_agw_cert_files`: delete the three derived
credential files, tolerating absence. -/
def remove_agw_cert_files (fs : FS) : FS :=
  ((fs.removeFile "/var/opt/magma/gateway.crt").removeFile
    "/var/opt/magma/gateway.key").removeFile "/var/opt/magma/gw_challenge.key"

/-- charm.py `_install_configurations`: install the root CA, the
certifier certificate and the generated configuration (all three
attempted; the list is built before any is inspected), reporting whether
any write happened. -/
def install_configurations (fs : FS) (ev : OrchestratorEvent) : Bool × FS :=
  let config := generate_config ev.orchestrator_address ev.orchestrator_port
    ev.bootstrapper_address ev.bootstrapper_port ev.fluentd_address ev.fluentd_port
  let r1 := install_file fs ROOT_CA_PATH ev.root_ca_certificate
  let r2 := install_file r1.2 CERT_CERTIFIER_CERT ev.certifier_pem_certificate
  let r3 := install_file r2.2 CONFIG_PATH config
  (r1.1 || r2.1 || r3.1, r3.2)

/-- charm.py `_on_orchestrator_available`, restricted to its filesystem
effect: when the stored certifier certificate changed, the stale
credential files are removed first; then the three configuration files
are installed.  (The service restart and the unit status it also
performs are external effects outside the filesystem model.) -/
def on_orchestrator_available (fs : FS) (ev : OrchestratorEvent) : FS :=
  let fs1 :=
    if certifier_pem_changed fs ev.certifier_pem_certificate then remove_agw_cert_files fs
    else fs
  (install_configurations fs1 ev).2

/-! ## Shared helper lemmas -/

theorem lookup_filter_ne (l : List (String × String)) (p : String) :
    (l.filter fun q => q.1 ≠ p).lookup p = none := by
  induction l with
  | nil => rfl
  | cons h t ih =>
    by_cases hp : h.1 = p
    · simpa [List.filter_cons, hp] using ih
    · have hb : (p == h.1) = false := by simp [Ne.symm hp]
      simpa [List.filter_cons, hp, List.lookup, hb] using ih

theorem lookup_filter_other (l : List (String × String)) (p q : String) (h : q ≠ p) :
    (l.filter fun e => e.1 ≠ p).lookup q = l.lookup q := by
  induction l with
  | nil => rfl
  | cons e t ih =>
    by_cases hp : e.1 = p
    · have hb : (q == p) = false := by simp [h]
      simpa [List.filter_cons, hp, List.lookup, hb] using ih
    · by_cases hq : q = e.1
      · simp [List.filter_cons, hp, List.lookup, hq]
      · have hb : (q == e.1) = false := by simp [hq]
        simpa [List.filter_cons, hp, List.lookup, hb] using ih

theorem fileContent_writeFile (fs : FS) (p c : String) :
    (fs.writeFile p c).fileContent p = some c := by
  simp [FS.writeFile, FS.fileContent, List.lookup]

theorem fileContent_removeFile (fs : FS) (p q : String) :
    (fs.removeFile p).fileContent q = if q = p then none else fs.fileContent q := by
  by_cases h : q = p
  · subst h
    simp only [if_pos rfl]
    exact lookup_filter_ne fs.files q
  · simp only [if_neg h]
    exact lookup_filter_other fs.files p q h

theorem splitOnChar_of_not_mem (sep : Char) (l : List Char) (h : sep ∉ l) :
    splitOnChar sep l = [l] := by
  induction l with
  | nil => rfl
  | cons c cs ih =>
    have hc : ¬c = sep := fun he => h (he ▸ List.mem_cons_self c cs)
    have hcs : sep ∉ cs := fun hm => h (List.mem_cons_of_mem c hm)
    simp [splitOnChar, hc, ih hcs]

theorem splitOnChar_append (sep : Char) (l1 l2 : List Char) (h : sep ∉ l1) :
    splitOnChar sep (l1 ++ sep :: l2) = l1 :: splitOnChar sep l2 := by
  induction l1 with
  | nil => simp [splitOnChar]
  | cons c cs ih =>
    have hc : ¬c = sep := fun he => h (he ▸ List.mem_cons_self c cs)
    have hcs : sep ∉ cs := fun hm => h (List.mem_cons_of_mem c hm)
    simp [splitOnChar, hc, ih hcs]

theorem pySplitNewline_line_append (a rest : String) (h : '\n' ∉ a.data) :
    pySplitNewline (a ++ "\n" ++ rest) = a :: pySplitNewline rest := by
  unfold pySplitNewline
  have hd : (a ++ "\n" ++ rest).data = a.data ++ '\n' :: rest.data := by
    simp [String.data_append]
  rw [hd, splitOnChar_append _ _ _ h]
  rfl

theorem digitChar_isDigit (m : Nat) (h : m < 10) : (Nat.digitChar m).isDigit = true := by
  interval_cases m <;> decide

theorem toDigitsCore_mem (b f n : Nat) (hb : b = 10) (ds : List Char) (c : Char)
    (hc : c ∈ Nat.toDigitsCore b f n ds) : c.isDigit = true ∨ c ∈ ds := by
  induction f generalizing n ds with
  | zero => simp [Nat.toDigitsCore] at hc; exact Or.inr hc
  | succ f ih =>
    simp only [Nat.toDigitsCore] at hc
    split at hc
    · rcases List.mem_cons.mp hc with h1 | h2
      · exact Or.inl (h1 ▸ digitChar_isDigit _ (by subst hb; exact Nat.mod_lt _ (by norm_num)))
      · exact Or.inr h2
    · rcases ih _ _ hc with h1 | h2
      · exact Or.inl h1
      · rcases List.mem_cons.mp h2 with h3 | h4
        · exact Or.inl (h3 ▸ digitChar_isDigit _ (by subst hb; exact Nat.mod_lt _ (by norm_num)))
        · exact Or.inr h4

theorem int_toString_no_newline (i : Int) : '\n' ∉ (toString i).data := by
  intro hmem
  cases i with
  | ofNat m =>
    have hd : (toString (Int.ofNat m)).data = Nat.toDigits 10 m := rfl
    rw [hd] at hmem
    rcases toDigitsCore_mem 10 _ _ rfl _ _ hmem with h | h
    · exact absurd h (by decide)
    · simp at h
  | negSucc m =>
    have hd : (toString (Int.negSucc m)).data = '-' :: Nat.toDigits 10 (m + 1) := rfl
    rw [hd] at hmem
    rcases List.mem_cons.mp hmem with h | h
    · exact absurd h (by decide)
    · rcases toDigitsCore_mem 10 _ _ rfl _ _ h with h1 | h1
      · exact absurd h1 (by decide)
      · simp at h1

/-! ## Claim theorems -/

/-- C3: with skip-networking true, whatever the host interfaces and the
other options hold, validation passes (with no diagnostic) and the
builder returns exactly the two-element skip-networking argument
list. -/
theorem skip_networking_bypasses (host : List String) (c : Config)
    (h : c.skipNetworking = true) :
    is_configuration_valid host c = (true, []) ∧
    install_arguments c = some ["--no-reboot", "--skip-networking"] := by
  constructor
  · simp [is_configuration_valid, h]
  · simp [install_arguments, h]

theorem skip_networking_bypasses_witness :
    is_configuration_valid [] ⟨true, "notjson", [("sgi", ""), ("bogus", "value")]⟩ = (true, []) ∧
    install_arguments ⟨true, "notjson", [("sgi", ""), ("bogus", "value")]⟩ =
      some ["--no-reboot", "--skip-networking"] :=
  skip_networking_bypasses [] ⟨true, "notjson", [("sgi", ""), ("bogus", "value")]⟩ rfl

set_option maxRecDepth 8192 in
/-- C1 counterexample: on a configuration holding a key with an empty
value, the code appends `--sgi-ipv4-address` followed by the empty
string, while the claimed builder (which skips empty values) does not:
the two differ. -/
theorem install_arguments_empty_value_counterexample :
    install_arguments ⟨false, "[\"8.8.8.8\"]", [("sgi", "enp0s1"), ("sgi-ipv4-address", "")]⟩ =
      some ["--no-reboot", "--dns", "8.8.8.8", "--sgi", "enp0s1", "--sgi-ipv4-address", ""] ∧
    build_arguments_spec ⟨false, "[\"8.8.8.8\"]", [("sgi", "enp0s1"), ("sgi-ipv4-address", "")]⟩ =
      some ["--no-reboot", "--dns", "8.8.8.8", "--sgi", "enp0s1"] ∧
    install_arguments ⟨false, "[\"8.8.8.8\"]", [("sgi", "enp0s1"), ("sgi-ipv4-address", "")]⟩ ≠
      build_arguments_spec ⟨false, "[\"8.8.8.8\"]", [("sgi", "enp0s1"), ("sgi-ipv4-address", "")]⟩ := by
  refine ⟨rfl, rfl, ?_⟩
  decide

set_option maxRecDepth 8192 in
/-- C1 (amended): with skip-networking false and a dns value decoding
to a JSON list of strings, the builder returns `--no-reboot --dns`, the
dns elements in order, then `--key value` for every remaining key in
the mapping's key order — including keys whose value is the empty
string. -/
theorem install_arguments_characterization (c : Config) (l : List JsonValue)
    (ds : List String) (hskip : c.skipNetworking = false)
    (hparse : jsonParse c.dns = some (JsonValue.arr l))
    (hstr : jsonStringList l = some ds) :
    install_arguments c =
      some (["--no-reboot", "--dns"] ++ ds ++
        c.rest.flatMap fun kv => ["--" ++ kv.1, kv.2]) := by
  simp [install_arguments, hskip, hparse, hstr]

set_option maxRecDepth 8192 in
theorem install_arguments_characterization_witness :
    install_arguments ⟨false, "[\"8.8.8.8\"]", [("sgi", "enp0s1"), ("sgi-ipv4-address", "")]⟩ =
      some (["--no-reboot", "--dns"] ++ ["8.8.8.8"] ++
        ([("sgi", "enp0s1"), ("sgi-ipv4-address", "")].flatMap
          fun kv => ["--" ++ kv.1, kv.2])) :=
  install_arguments_characterization
    ⟨false, "[\"8.8.8.8\"]", [("sgi", "enp0s1"), ("sgi-ipv4-address", "")]⟩
    [JsonValue.str "8.8.8.8"] ["8.8.8.8"] rfl rfl rfl

set_option maxRecDepth 8192 in
/-- C10: the dns check accepts JSON lists of integers: each integer in
the 128-bit range passes Python ip_address, so "[1]" and every nonempty
list of in-range integers is accepted. -/
theorem dns_accepts_integer_elements :
    are_valid_dns "[1]" = true ∧
    ∀ (s : String) (l : List JsonValue), jsonParse s = some (JsonValue.arr l) → l ≠ [] →
      (∀ e ∈ l, ∃ n : Int, e = JsonValue.num n ∧ 0 ≤ n ∧ n < 2 ^ 128) →
      are_valid_dns s = true := by
  constructor
  · rfl
  · intro s l hp hne hall
    simp only [are_valid_dns, hp, Bool.and_eq_true, List.all_eq_true]
    refine ⟨by simpa [List.isEmpty_iff] using hne, ?_⟩
    intro e he
    obtain ⟨n, he1, h0, h128⟩ := hall e he
    subst he1
    simp only [ip_address_ok, Bool.and_eq_true, decide_eq_true_eq]
    exact ⟨h0, h128⟩

set_option maxRecDepth 8192 in
theorem dns_accepts_integer_elements_witness :
    are_valid_dns "[257]" = true :=
  dns_accepts_integer_elements.2 "[257]" [JsonValue.num 257] rfl (by simp)
    (by
      intro e he
      simp only [List.mem_singleton] at he
      exact ⟨257, he, by decide, by decide⟩)

/-- Writing a file leaves the directories untouched. -/
theorem dirExists_writeFile (fs : FS) (p c d : String) :
    (fs.writeFile p c).dirExists d = fs.dirExists d := rfl

/-- C7: install_file writes and returns true exactly when the file is
absent or holds different content; on equal content it returns false
with the filesystem unchanged; afterwards the file holds the content,
so an immediate second install of the same content writes nothing.
The hypothesis states the filesystem invariant that an existing file
lies in an existing directory. -/
theorem install_file_spec (fs : FS) (file content : String)
    (hinv : ∀ c, fs.fileContent file = some c → fs.dirExists (parentDir file) = true) :
    ((install_file fs file content).1 = true ↔ fs.fileContent file ≠ some content) ∧
    (install_file fs file content).2.fileContent file = some content ∧
    (fs.fileContent file = some content → install_file fs file content = (false, fs)) ∧
    (install_file (install_file fs file content).2 file content).1 = false := by
  by_cases hd : fs.dirExists (parentDir file) = true
  · by_cases he : fs.fileContent file = some content
    · refine ⟨by simp [install_file, hd, he], ?_, fun _ => by simp [install_file, hd, he], ?_⟩
      · simp [install_file, hd, he]
      · simp [install_file, hd, he]
    · refine ⟨by simp [install_file, hd, he], ?_, fun h => absurd h he, ?_⟩
      · simp [install_file, hd, he, fileContent_writeFile]
      · have h1 : (install_file fs file content).2 = fs.writeFile file content := by
          simp [install_file, hd, he]
        rw [h1]
        simp [install_file, dirExists_writeFile, hd, fileContent_writeFile]
  · have hnone : fs.fileContent file ≠ some content := fun he => hd (hinv content he)
    have hdf : fs.dirExists (parentDir file) = false := by
      revert hd; cases fs.dirExists (parentDir file) <;> simp
    refine ⟨by simp [install_file, hdf, hnone], ?_, fun h => absurd h hnone, ?_⟩
    · simp [install_file, hdf, fileContent_writeFile]
    · have h1 : (install_file fs file content).2 =
          FS.writeFile { fs with dirs := parentDir file :: fs.dirs } file content := by
        simp [install_file, hdf]
      rw [h1]
      have h2 : (FS.writeFile { fs with dirs := parentDir file :: fs.dirs } file
          content).dirExists (parentDir file) = true := by
        simp [FS.writeFile, FS.dirExists]
      simp [install_file, h2, fileContent_writeFile]

theorem install_file_spec_witness :
    ((install_file ⟨["/d"], [("/d/f", "old")]⟩ "/d/f" "new").1 = true ↔
      FS.fileContent ⟨["/d"], [("/d/f", "old")]⟩ "/d/f" ≠ some "new") ∧
    (install_file ⟨["/d"], [("/d/f", "old")]⟩ "/d/f" "new").2.fileContent "/d/f" = some "new" ∧
    (FS.fileContent ⟨["/d"], [("/d/f", "old")]⟩ "/d/f" = some "new" →
      install_file ⟨["/d"], [("/d/f", "old")]⟩ "/d/f" "new" =
        (false, ⟨["/d"], [("/d/f", "old")]⟩)) ∧
    (install_file (install_file ⟨["/d"], [("/d/f", "old")]⟩ "/d/f" "new").2 "/d/f" "new").1 =
      false :=
  install_file_spec ⟨["/d"], [("/d/f", "old")]⟩ "/d/f" "new"
    (fun c _ => by decide)

/-- C8: when the stored certifier certificate exists with content
different from the announced one, the handler first removes the three
derived credential files (all absent afterwards) and only then installs
the configuration files; when the stored certificate is absent or
identical, the installation runs on the unchanged filesystem, deleting
nothing. -/
theorem certifier_replacement_spec (fs : FS) (ev : OrchestratorEvent) (old : String) :
    (fs.fileContent CERT_CERTIFIER_CERT = some old → old ≠ ev.certifier_pem_certificate →
      on_orchestrator_available fs ev =
        (install_configurations (remove_agw_cert_files fs) ev).2 ∧
      (remove_agw_cert_files fs).fileContent "/var/opt/magma/gateway.crt" = none ∧
      (remove_agw_cert_files fs).fileContent "/var/opt/magma/gateway.key" = none ∧
      (remove_agw_cert_files fs).fileContent "/var/opt/magma/gw_challenge.key" = none) ∧
    ((fs.fileContent CERT_CERTIFIER_CERT = none ∨
        fs.fileContent CERT_CERTIFIER_CERT = some ev.certifier_pem_certificate) →
      on_orchestrator_available fs ev = (install_configurations fs ev).2) := by
  constructor
  · intro hold hne
    have hch : certifier_pem_changed fs ev.certifier_pem_certificate = true := by
      simp [certifier_pem_changed, hold, hne]
    refine ⟨by simp [on_orchestrator_available, hch], ?_, ?_, ?_⟩
    · unfold remove_agw_cert_files
      rw [fileContent_removeFile, if_neg (by decide), fileContent_removeFile,
        if_neg (by decide), fileContent_removeFile, if_pos rfl]
    · unfold remove_agw_cert_files
      rw [fileContent_removeFile, if_neg (by decide), fileContent_removeFile, if_pos rfl]
    · unfold remove_agw_cert_files
      rw [fileContent_removeFile, if_pos rfl]
  · intro hcase
    have hch : certifier_pem_changed fs ev.certifier_pem_certificate = false := by
      rcases hcase with h | h <;> simp [certifier_pem_changed, h]
    simp [on_orchestrator_available, hch]

theorem certifier_replacement_spec_witness :
    (on_orchestrator_available
        ⟨["/var/opt/magma/tmp/certs"], [(CERT_CERTIFIER_CERT, "oldpem"),
          ("/var/opt/magma/gateway.crt", "x")]⟩
        ⟨"orc", 443, "boot", 443, "flu", 24224, "rootca", "newpem"⟩ =
      (install_configurations
        (remove_agw_cert_files ⟨["/var/opt/magma/tmp/certs"], [(CERT_CERTIFIER_CERT, "oldpem"),
          ("/var/opt/magma/gateway.crt", "x")]⟩)
        ⟨"orc", 443, "boot", 443, "flu", 24224, "rootca", "newpem"⟩).2) ∧
    (remove_agw_cert_files ⟨["/var/opt/magma/tmp/certs"], [(CERT_CERTIFIER_CERT, "oldpem"),
      ("/var/opt/magma/gateway.crt", "x")]⟩).fileContent "/var/opt/magma/gateway.crt" = none ∧
    (remove_agw_cert_files ⟨["/var/opt/magma/tmp/certs"], [(CERT_CERTIFIER_CERT, "oldpem"),
      ("/var/opt/magma/gateway.crt", "x")]⟩).fileContent "/var/opt/magma/gateway.key" = none ∧
    (remove_agw_cert_files ⟨["/var/opt/magma/tmp/certs"], [(CERT_CERTIFIER_CERT, "oldpem"),
      ("/var/opt/magma/gateway.crt", "x")]⟩).fileContent "/var/opt/magma/gw_challenge.key" =
      none :=
  (certifier_replacement_spec
    ⟨["/var/opt/magma/tmp/certs"], [(CERT_CERTIFIER_CERT, "oldpem"),
      ("/var/opt/magma/gateway.crt", "x")]⟩
    ⟨"orc", 443, "boot", 443, "flu", 24224, "rootca", "newpem"⟩ "oldpem").1 rfl (by decide)

set_option maxRecDepth 8192 in
/-- C9 counterexample: an orchestrator address containing a newline
makes the generated file split into ten lines, not the nine fixed lines
the claim promises for every input value. -/
theorem generate_config_newline_counterexample :
    (pySplitNewline (generate_config "a\nb" 443 "boot" 8443 "flu" 24224)).length = 10 ∧
    pySplitNewline (generate_config "a\nb" 443 "boot" 8443 "flu" 24224) ≠
      ["cloud_address: a\nb", "cloud_port: 443", "bootstrap_address: boot",
       "bootstrap_port: 8443", "fluentd_address: flu", "fluentd_port: 24224",
       "", "rootca_cert: " ++ ROOT_CA_PATH, ""] := by
  constructor
  · rfl
  · decide

/-- C9 (amended): for every combination of addresses and ports whose
address values contain no newline (port values are integers, whose
decimal rendering never contains one), the generated file consists of
exactly the six endpoint lines in fixed order, a blank line, and the
rootca_cert line naming the fixed root-CA path, with a trailing final
newline. -/
theorem generate_config_lines (oa ba fa : String) (op bp fp : Int)
    (h1 : '\n' ∉ oa.data) (h2 : '\n' ∉ ba.data) (h3 : '\n' ∉ fa.data) :
    pySplitNewline (generate_config oa op ba bp fa fp) =
      ["cloud_address: " ++ oa, "cloud_port: " ++ toString op,
       "bootstrap_address: " ++ ba, "bootstrap_port: " ++ toString bp,
       "fluentd_address: " ++ fa, "fluentd_port: " ++ toString fp,
       "", "rootca_cert: " ++ ROOT_CA_PATH, ""] := by
  have hassoc : generate_config oa op ba bp fa fp =
      ("cloud_address: " ++ oa) ++ "\n" ++
      (("cloud_port: " ++ toString op) ++ "\n" ++
      (("bootstrap_address: " ++ ba) ++ "\n" ++
      (("bootstrap_port: " ++ toString bp) ++ "\n" ++
      (("fluentd_address: " ++ fa) ++ "\n" ++
      (("fluentd_port: " ++ toString fp) ++ "\n" ++
      ("" ++ "\n" ++
      (("rootca_cert: " ++ ROOT_CA_PATH) ++ "\n" ++ ""))))))) := by
    apply String.ext
    simp [generate_config, String.data_append]
  have hseg : ∀ (prefixPart : String) (v : String), '\n' ∉ v.data →
      '\n' ∉ prefixPart.data → '\n' ∉ (prefixPart ++ v).data := by
    intro prefixPart v hv hp hmem
    rw [String.data_append] at hmem
    rcases List.mem_append.mp hmem with h | h
    · exact hp h
    · exact hv h
  rw [hassoc]
  rw [pySplitNewline_line_append _ _ (hseg _ _ h1 (by decide))]
  rw [pySplitNewline_line_append _ _ (hseg _ _ (int_toString_no_newline op) (by decide))]
  rw [pySplitNewline_line_append _ _ (hseg _ _ h2 (by decide))]
  rw [pySplitNewline_line_append _ _ (hseg _ _ (int_toString_no_newline bp) (by decide))]
  rw [pySplitNewline_line_append _ _ (hseg _ _ h3 (by decide))]
  rw [pySplitNewline_line_append _ _ (hseg _ _ (int_toString_no_newline fp) (by decide))]
  rw [pySplitNewline_line_append _ _ (by decide)]
  rw [pySplitNewline_line_append _ _ (by decide)]
  rfl

theorem generate_config_lines_witness :
    pySplitNewline (generate_config "orc.example.com" 443 "boot.example.com" 8443
        "fluentd.example.com" 24224) =
      ["cloud_address: " ++ "orc.example.com", "cloud_port: " ++ toString (443 : Int),
       "bootstrap_address: " ++ "boot.example.com", "bootstrap_port: " ++ toString (8443 : Int),
       "fluentd_address: " ++ "fluentd.example.com", "fluentd_port: " ++ toString (24224 : Int),
       "", "rootca_cert: " ++ ROOT_CA_PATH, ""] :=
  generate_config_lines "orc.example.com" "boot.example.com" "fluentd.example.com"
    443 8443 24224 (by decide) (by decide) (by decide)

set_option maxRecDepth 8192 in
/-- C5: the IPv4 interface-address check accepts exactly the strings
that parse as an IPv4 network with prefix length other than 32;
"10.0.0.2/24" passes, "10.0.0.2" (implicit /32) and "10.0.0.2/32"
fail. -/
theorem ipv4_address_validation :
    (∀ s : String, is_valid_ipv4_address s = true ↔
      ∃ p, parse_ip_network s = some (IPNet.v4 p) ∧ p ≠ 32) ∧
    is_valid_ipv4_address "10.0.0.2/24" = true ∧
    is_valid_ipv4_address "10.0.0.2" = false ∧
    is_valid_ipv4_address "10.0.0.2/32" = false := by
  refine ⟨?_, rfl, rfl, rfl⟩
  intro s
  unfold is_valid_ipv4_address
  cases h : parse_ip_network s with
  | none => simp
  | some net =>
    cases net with
    | v4 p => simp [bne_iff_ne]
    | v6 p => simp

set_option maxRecDepth 8192 in
theorem ipv4_address_validation_witness :
    ∃ p, parse_ip_network "10.0.0.2/24" = some (IPNet.v4 p) ∧ p ≠ 32 :=
  (ipv4_address_validation.1 "10.0.0.2/24").mp ipv4_address_validation.2.1

/-- No string of the form `v ++ suffix` with `suffix` ending in a 'd'
is the DNS diagnostic (which ends in an 'n'). -/
theorem append_msg_ne_dns (v suffix : String) (hs : suffix.data.getLast? = some 'd') :
    v ++ suffix ≠ "Invalid DNS configuration" := by
  intro he
  have h1 : (v ++ suffix).data.getLast? = some 'n' := by rw [he]; rfl
  rw [String.data_append, List.getLast?_append, hs] at h1
  exact absurd (Option.some.inj h1) (by decide)

/-- The interface check never emits the DNS diagnostic. -/
theorem interface_count_dns_msg (host : List String) (c : Config) (n nn : String) :
    (is_valid_interface host c n nn).2.count "Invalid DNS configuration" = 0 := by
  dsimp only [is_valid_interface]
  split
  · simp [List.count_cons, append_msg_ne_dns n " interface name is required" (by decide)]
  · split
    · simp [List.count_cons,
        append_msg_ne_dns ((c.get n).getD "") " interface not found" (by decide)]
    · rfl

/-- The sgi addressing block never emits the DNS diagnostic. -/
theorem sgi_count_dns_msg (c : Config) :
    (sgi_addressing c).2.count "Invalid DNS configuration" = 0 := by
  dsimp only [sgi_addressing]
  repeat' split
  all_goals rfl

/-- The s1 addressing block never emits the DNS diagnostic. -/
theorem s1_count_dns_msg (c : Config) :
    (s1_addressing c).2.count "Invalid DNS configuration" = 0 := by
  dsimp only [s1_addressing]
  repeat' split
  all_goals rfl

set_option maxRecDepth 8192 in
/-- C4: the dns value is accepted exactly when it decodes as JSON to a
nonempty list whose every element Python ip_address accepts; the quoted
example values behave as claimed, and an invalid dns value makes the
validator log the "Invalid DNS configuration" diagnostic exactly
once. -/
theorem dns_validation_spec :
    (∀ s : String, are_valid_dns s = true ↔
      ∃ l, jsonParse s = some (JsonValue.arr l) ∧ l ≠ [] ∧ ∀ e ∈ l, ip_address_ok e = true) ∧
    are_valid_dns "[\"8.8.8.8\",\"208.67.222.222\"]" = true ∧
    are_valid_dns "notjson" = false ∧
    are_valid_dns "\x7b\"a\":\"b\"\x7d" = false ∧
    are_valid_dns "[\"8.8.8.8\",\"not-an-ip\"]" = false ∧
    ∀ (host : List String) (c : Config), c.skipNetworking = false →
      are_valid_dns c.dns = false →
      (is_configuration_valid host c).2.count "Invalid DNS configuration" = 1 := by
  refine ⟨?_, rfl, rfl, rfl, rfl, ?_⟩
  · intro s
    unfold are_valid_dns
    cases h : jsonParse s with
    | none => simp
    | some v =>
      cases v with
      | arr l =>
        simp [Bool.and_eq_true, List.all_eq_true, List.isEmpty_iff]
      | null => simp
      | bool b => simp
      | num n => simp
      | fnum => simp
      | str t => simp
      | obj fields => simp
  · intro host c hskip hdns
    simp only [is_configuration_valid, hskip, Bool.false_eq_true, if_false, hdns]
    simp [List.count_append, interface_count_dns_msg, sgi_count_dns_msg, s1_count_dns_msg]

theorem dns_validation_spec_witness :
    (is_configuration_valid ["enp0s1"]
      ⟨false, "notjson", [("sgi", "enp0s1"), ("s1", "enp0s1")]⟩).2.count
      "Invalid DNS configuration" = 1 :=
  dns_validation_spec.2.2.2.2.2 ["enp0s1"]
    ⟨false, "notjson", [("sgi", "enp0s1"), ("s1", "enp0s1")]⟩ rfl rfl

set_option maxRecDepth 8192 in
/-- C2 counterexample: a configuration that violates two sgi sub-checks
at once — only one of the IPv4 address/gateway pair is set, and the
IPv6 address is invalid — yet the whole validation call emits exactly
one diagnostic, for the first violated sub-check only: the sgi block
returns at its first failure instead of accumulating. -/
theorem validator_short_circuit_counterexample :
    truthy (Config.get ⟨false, "[\"8.8.8.8\"]",
      [("sgi", "enp0s1"), ("s1", "enp0s2"), ("sgi-ipv4-address", "10.0.0.2/24"),
       ("sgi-ipv6-address", "not-an-ip"), ("sgi-ipv6-gateway", "2001:db8::1")]⟩
      "sgi-ipv6-address") = true ∧
    is_valid_ipv6_address "not-an-ip" = false ∧
    (is_configuration_valid ["enp0s1", "enp0s2"] ⟨false, "[\"8.8.8.8\"]",
      [("sgi", "enp0s1"), ("s1", "enp0s2"), ("sgi-ipv4-address", "10.0.0.2/24"),
       ("sgi-ipv6-address", "not-an-ip"), ("sgi-ipv6-gateway", "2001:db8::1")]⟩).2 =
      ["Both IPv4 address and gateway required for interface sgi"] :=
  ⟨rfl, rfl, rfl⟩

/-- A block that emits no diagnostic is exactly a block that passed. -/
theorem block_empty_iff (b : Bool) (l : List String)
    (hlen : l.length = if b then 0 else 1) : l = [] ↔ b = true := by
  cases b
  · simp only [Bool.false_eq_true, if_false] at hlen
    constructor
    · intro h
      rw [h] at hlen
      simp at hlen
    · intro h
      cases h
  · simp only [if_true] at hlen
    simp [List.length_eq_zero.mp hlen]

/-- Diagnostic count of the sgi block: none on success, one on
failure. -/
theorem sgi_addressing_length (c : Config) :
    (sgi_addressing c).2.length = if (sgi_addressing c).1 then 0 else 1 := by
  dsimp only [sgi_addressing]
  repeat' split
  all_goals simp_all

/-- Diagnostic count of the s1 block. -/
theorem s1_addressing_length (c : Config) :
    (s1_addressing c).2.length = if (s1_addressing c).1 then 0 else 1 := by
  dsimp only [s1_addressing]
  repeat' split
  all_goals simp_all

/-- Diagnostic count of the interface check. -/
theorem interface_length (host : List String) (c : Config) (n nn : String) :
    (is_valid_interface host c n nn).2.length =
      if (is_valid_interface host c n nn).1 then 0 else 1 := by
  dsimp only [is_valid_interface]
  repeat' split
  all_goals simp_all

/-- C2 (amended): with skip-networking false the validator evaluates
all five top-level rules — sgi interface, s1 interface, sgi addressing,
s1 addressing, dns — regardless of earlier failures, conjoining their
verdicts and concatenating their diagnostics; but each interface or
addressing block reports at most one diagnostic, the first violated
sub-check inside it, so the validator passes exactly when no diagnostic
is emitted. -/
theorem validator_accumulates_rules (host : List String) (c : Config)
    (h : c.skipNetworking = false) :
    (is_configuration_valid host c).1 =
      ((is_valid_interface host c "sgi" "eth0").1 && (is_valid_interface host c "s1" "eth1").1 &&
        (sgi_addressing c).1 && (s1_addressing c).1 && are_valid_dns c.dns) ∧
    (is_configuration_valid host c).2 =
      (is_valid_interface host c "sgi" "eth0").2 ++ (is_valid_interface host c "s1" "eth1").2 ++
        (sgi_addressing c).2 ++ (s1_addressing c).2 ++
        (if are_valid_dns c.dns then [] else ["Invalid DNS configuration"]) ∧
    ((sgi_addressing c).2.length = if (sgi_addressing c).1 then 0 else 1) ∧
    ((s1_addressing c).2.length = if (s1_addressing c).1 then 0 else 1) ∧
    ((is_configuration_valid host c).1 = true ↔ (is_configuration_valid host c).2 = []) := by
  have hdns : ∀ r : Bool × List String,
      r = (if are_valid_dns c.dns then ((true : Bool), ([] : List String))
        else (false, ["Invalid DNS configuration"])) →
      r.1 = are_valid_dns c.dns ∧
        r.2 = (if are_valid_dns c.dns then [] else ["Invalid DNS configuration"]) := by
    intro r hr
    cases hd : are_valid_dns c.dns <;> subst hr <;> simp [hd]
  obtain ⟨hd1, hd2⟩ := hdns _ rfl
  have h1 : (is_configuration_valid host c).1 =
      ((is_valid_interface host c "sgi" "eth0").1 && (is_valid_interface host c "s1" "eth1").1 &&
        (sgi_addressing c).1 && (s1_addressing c).1 && are_valid_dns c.dns) := by
    simp only [is_configuration_valid, h, Bool.false_eq_true, if_false]
    rw [hd1]
  have h2 : (is_configuration_valid host c).2 =
      (is_valid_interface host c "sgi" "eth0").2 ++ (is_valid_interface host c "s1" "eth1").2 ++
        (sgi_addressing c).2 ++ (s1_addressing c).2 ++
        (if are_valid_dns c.dns then [] else ["Invalid DNS configuration"]) := by
    simp only [is_configuration_valid, h, Bool.false_eq_true, if_false]
    try rw [hd2]
    try simp [List.append_assoc]
  refine ⟨h1, h2, sgi_addressing_length c, s1_addressing_length c, ?_⟩
  rw [h1, h2]
  simp only [Bool.and_eq_true, List.append_eq_nil]
  rw [block_empty_iff _ _ (interface_length host c "sgi" "eth0"),
    block_empty_iff _ _ (interface_length host c "s1" "eth1"),
    block_empty_iff _ _ (sgi_addressing_length c),
    block_empty_iff _ _ (s1_addressing_length c)]
  cases hd : are_valid_dns c.dns <;> simp [hd]

set_option maxRecDepth 8192 in
theorem validator_accumulates_rules_witness :
    ((is_configuration_valid ["enp0s1", "enp0s2"] ⟨false, "[\"8.8.8.8\"]",
        [("sgi", "enp0s1"), ("s1", "enp0s2"), ("sgi-ipv4-address", "10.0.0.2/24"),
         ("sgi-ipv6-address", "not-an-ip"), ("sgi-ipv6-gateway", "2001:db8::1")]⟩).1 = false) ∧
    ((is_configuration_valid ["enp0s1", "enp0s2"] ⟨false, "[\"8.8.8.8\"]",
        [("sgi", "enp0s1"), ("s1", "enp0s2"), ("sgi-ipv4-address", "10.0.0.2/24"),
         ("sgi-ipv6-address", "not-an-ip"), ("sgi-ipv6-gateway", "2001:db8::1")]⟩).2.length = 1) := by
  have hthm := validator_accumulates_rules ["enp0s1", "enp0s2"] ⟨false, "[\"8.8.8.8\"]",
    [("sgi", "enp0s1"), ("s1", "enp0s2"), ("sgi-ipv4-address", "10.0.0.2/24"),
     ("sgi-ipv6-address", "not-an-ip"), ("sgi-ipv6-gateway", "2001:db8::1")]⟩ rfl
  refine ⟨?_, ?_⟩
  · rw [hthm.1]; rfl
  · rw [hthm.2.1]; rfl

set_option maxRecDepth 8192 in
/-- C6: on filtered output carrying both labels with a following line,
the extraction returns the line after "Hardware ID" and the line after
"Challenge key"; on any output missing a label or its value line it
returns an error, which the action handler turns into the fixed action
failure rather than an uncaught crash. -/
theorem secret_extraction_spec (raw : String) :
    (∀ (i j : Nat) (h2 : i + 1 < (filterGatewayInfo raw).length)
        (h4 : j + 1 < (filterGatewayInfo raw).length),
      pyIndex (filterGatewayInfo raw) "Hardware ID" = some i →
      pyIndex (filterGatewayInfo raw) "Challenge key" = some j →
      get_magma_secrets raw = Except.ok
        ((filterGatewayInfo raw).get ⟨i + 1, h2⟩, (filterGatewayInfo raw).get ⟨j + 1, h4⟩)) ∧
    (wellFormedGatewayInfo raw = false →
      (∃ e, get_magma_secrets raw = Except.error e) ∧
      on_get_access_gateway_secrets true raw =
        ActionResult.fail "Failed to get Magma Access Gateway secrets!") := by
  constructor
  · intro i j h2 h4 hi hj
    simp only [get_magma_secrets, hi, List.get?_eq_get h2, hj, List.get?_eq_get h4]
  · intro hwf
    have herr : ∃ e, get_magma_secrets raw = Except.error e := by
      unfold wellFormedGatewayInfo at hwf
      cases hi : pyIndex (filterGatewayInfo raw) "Hardware ID" with
      | none => exact ⟨SecretError.valueError, by simp only [get_magma_secrets, hi]⟩
      | some i =>
        cases hgi : (filterGatewayInfo raw).get? (i + 1) with
        | none => exact ⟨SecretError.indexError, by simp only [get_magma_secrets, hi, hgi]⟩
        | some hw =>
          cases hj : pyIndex (filterGatewayInfo raw) "Challenge key" with
          | none =>
            exact ⟨SecretError.valueError, by simp only [get_magma_secrets, hi, hgi, hj]⟩
          | some j =>
            cases hgj : (filterGatewayInfo raw).get? (j + 1) with
            | none =>
              exact ⟨SecretError.indexError, by simp only [get_magma_secrets, hi, hgi, hj, hgj]⟩
            | some ck =>
              exfalso
              rw [hi, hj] at hwf
              dsimp only at hwf
              have hlt1 : i + 1 < (filterGatewayInfo raw).length := by
                by_contra hge
                rw [List.get?_eq_none.mpr (Nat.le_of_not_lt hge)] at hgi
                cases hgi
              have hlt2 : j + 1 < (filterGatewayInfo raw).length := by
                by_contra hge
                rw [List.get?_eq_none.mpr (Nat.le_of_not_lt hge)] at hgj
                cases hgj
              rw [decide_eq_true hlt1, decide_eq_true hlt2] at hwf
              simp at hwf
    obtain ⟨e, he⟩ := herr
    exact ⟨⟨e, he⟩, by simp [on_get_access_gateway_secrets, he]⟩

set_option maxRecDepth 8192 in
theorem secret_extraction_spec_witness :
    get_magma_secrets
        "Hardware ID
--------------
hw123

Challenge key
-----------
ck456
" =
      Except.ok ("hw123", "ck456") ∧
    (∃ e, get_magma_secrets "Hardware ID
hw123
Challenge key
" = Except.error e) ∧
    on_get_access_gateway_secrets true "Hardware ID
hw123
Challenge key
" =
      ActionResult.fail "Failed to get Magma Access Gateway secrets!" :=
  ⟨(secret_extraction_spec
      "Hardware ID
--------------
hw123

Challenge key
-----------
ck456
").1
      0 2 (by decide) (by decide) (by decide) (by decide),
   ((secret_extraction_spec "Hardware ID
hw123
Challenge key
").2 (by decide)).1,
   ((secret_extraction_spec "Hardware ID
hw123
Challenge key
").2 (by decide)).2⟩

end Agw
